import Mathlib

/-!
# Verification of the translateplus-js request-execution core

This file gives a shallow embedding, in Lean 4, of the parts of the
`translateplus-js` client that the specification talks about:

* the retry / backoff / error-classification loop of
  `TranslatePlusClient.makeRequest` (src/client.ts),
* the in-flight counter bookkeeping around it,
* the pre-flight validation of `translateBatch`,
* the fan-out of `translateConcurrent`,
* the direct (executor-bypassing) `downloadI18nFile`,
* the constructor defaulting logic, and
* a small interleaving model of the admission gate for concurrency claims.

JavaScript-specific semantics (truthiness of `||`, `parseInt` returning
`NaN`, `Math.min` with `NaN`, `setTimeout` with a non-numeric delay) are
modelled explicitly, since the code relies on them.
-/

deriving instance DecidableEq for Except

/-! ## JavaScript number and string helpers -/

/-- A JavaScript number restricted to the values the executor can actually
produce here: an integer or `NaN` (from `parseInt` on a non-numeric string). -/
inductive JsNum where
  | nan : JsNum
  | int : Int → JsNum
deriving Repr, DecidableEq

/-- Multiplication by an integer constant; `NaN` is absorbing, as in JS. -/
def JsNum.mulInt : JsNum → Int → JsNum
  | .nan, _ => .nan
  | .int n, k => .int (n * k)

/-- Model of `Math.min` on two such numbers: `NaN` if either argument is `NaN`. -/
def JsNum.jsMin : JsNum → JsNum → JsNum
  | .nan, _ => .nan
  | _, .nan => .nan
  | .int a, .int b => .int (min a b)

/-- The effective delay of `setTimeout(f, d)` in milliseconds: a `NaN` or
negative delay behaves as 0. -/
def JsNum.timeoutMs : JsNum → Nat
  | .nan => 0
  | .int n => n.toNat

/-- JS `s || d` on strings: the empty string is falsy. -/
def jsOrS (s : Option String) (d : String) : String :=
  match s with
  | none => d
  | some t => if t = "" then d else t

/-- JS `n || d` on (integer) numbers: 0 is falsy. -/
def jsOrI (v : Option Int) (d : Int) : Int :=
  match v with
  | none => d
  | some x => if x = 0 then d else x

/-- Value of a decimal digit prefix: consumes digits, stops at the first
non-digit, accumulating the value. -/
def decDigitsVal : List Char → Nat → Nat
  | [], acc => acc
  | c :: cs, acc => if c.isDigit then decDigitsVal cs (acc * 10 + (c.toNat - 48)) else acc

/-- JS `parseInt(s, 10)`: skip leading whitespace, optional sign, then the
longest digit prefix; `NaN` when no digit follows. -/
def parseIntJS (s : String) : JsNum :=
  let cs := s.toList.dropWhile Char.isWhitespace
  match cs with
  | [] => .nan
  | '-' :: rest =>
    if (rest.headD ' ').isDigit then .int (-(decDigitsVal rest 0 : Int)) else .nan
  | '+' :: rest =>
    if (rest.headD ' ').isDigit then .int (decDigitsVal rest 0) else .nan
  | c :: rest =>
    if c.isDigit then .int (decDigitsVal (c :: rest) 0) else .nan

/-! ## Data model: decoded JSON, errors, transport outcomes -/

/-- The decoded JSON body of a response, reduced to the one field the
executor inspects (`errorData.detail`); `{}` is `⟨none⟩`. -/
structure Json where
  detail : Option String := none
deriving Repr, DecidableEq

/-- The error taxonomy of src/exceptions.ts, as a sum type.  `api` is
`TranslatePlusAPIError`; the three specializations keep its fields. -/
inductive TPError where
  | validation (msg : String)
  | api (msg : String) (statusCode : Option Nat) (response : Option Json)
  | auth (msg : String) (statusCode : Option Nat) (response : Option Json)
  | rateLimit (msg : String) (statusCode : Option Nat) (response : Option Json)
  | insufficientCredits (msg : String) (statusCode : Option Nat) (response : Option Json)
deriving Repr, DecidableEq

/-- The `error.message` accessor. -/
def TPError.message : TPError → String
  | .validation m => m
  | .api m _ _ => m
  | .auth m _ _ => m
  | .rateLimit m _ _ => m
  | .insufficientCredits m _ _ => m

/-- Is this a `TranslatePlusValidationError`? -/
def TPError.isValidation : TPError → Bool
  | .validation _ => true
  | _ => false

/-- Is this exactly the generic `TranslatePlusAPIError` kind (not one of its
specializations)? -/
def TPError.isGenericApi : TPError → Bool
  | .api _ _ _ => true
  | _ => false

/-- What one `fetch` of an attempt yields: a response (status, the
`Retry-After` header if present, and the body's JSON decode — `none` when
`response.json()` rejects), a timeout abort, or a transport error. -/
inductive FetchOutcome where
  | response (status : Nat) (retryAfterHeader : Option String) (body : Option Json)
  | abortErr
  | networkErr (msg : String)
deriving Repr, DecidableEq

/-- Executor-relevant configuration of one client instance. -/
structure Config where
  timeout : Int
  maxRetries : Nat
  maxConcurrent : Nat
deriving Repr, DecidableEq

/-! ## The makeRequest retry loop (src/client.ts lines 145-253) -/

/-- Model of `response.headers.get('Retry-After') || '2'`: `null` and `''` are falsy. -/
def retryAfterRaw (hdr : Option String) : String :=
  jsOrS hdr "2"

/-- The delay computed on a 429: `Math.min(retryAfter * 1000, 2 ** attempt * 1000)`,
with `retryAfter = parseInt(headers.get('Retry-After') || '2', 10)`. -/
def delay429 (hdr : Option String) (attempt : Nat) : JsNum :=
  JsNum.jsMin ((parseIntJS (retryAfterRaw hdr)).mulInt 1000) (.int ((2 ^ attempt) * 1000))

/-- Model of the error message: `errorData.detail` or `API error: {status}` as
fallback, with `errorData` the decoded
body or `{}` when decoding failed. -/
def errMessageOf (status : Nat) (body : Option Json) : String :=
  jsOrS (body.getD {}).detail s!"API error: {status}"

/-- The message of the rate-limit error constructed on a final-attempt 429. -/
def rateLimitMsg : String := "Rate limit exceeded. Please try again later."

/-- Stand-in for the runtime's message when `response.json()` rejects on a
success-status response. -/
def jsonParseErrMsg : String := "Unexpected end of JSON input"

/-- How one attempt of the loop ends. -/
inductive AttemptStep where
  | done (r : Except TPError Json)
  | retryAfterWait (waitArg : JsNum) (newErrMsg : Option String)
  | fallthrough (lastMsg : String)
deriving Repr

/-- A transient failure inside an attempt (thrown error that is neither an
authentication nor an insufficient-credits error): retried with exponential
backoff `2 ^ attempt * 1000` ms unless this was the last attempt, in which
case the loop falls through with `lastError` set. -/
def transientStep (msg : String) (attempt : Nat) (isLast : Bool) : AttemptStep :=
  cond isLast (.fallthrough msg)
    (.retryAfterWait (.int ((2 ^ attempt) * 1000)) (some msg))

/-- One iteration of the retry loop, transcribed from src/client.ts:
429 handling (lines 164-177), status-to-error mapping (lines 180-205),
success decode (line 207), and the two catch blocks (lines 208-243) that
rethrow only authentication / insufficient-credits errors and otherwise
retry with backoff. -/
def processAttempt (cfg : Config) (o : FetchOutcome) (attempt : Nat) (isLast : Bool) :
    AttemptStep :=
  match o with
  | .response status hdr body =>
    if status = 429 then
      -- lines 164-177; the RateLimitError thrown on the last attempt is
      -- caught by the catch at line 208, which only sets lastError.
      cond isLast (.fallthrough rateLimitMsg)
        (.retryAfterWait (delay429 hdr attempt) none)
    else if 400 ≤ status then
      let errorData := body.getD {}
      let msg := errMessageOf status body
      if status = 401 ∨ status = 403 then
        .done (.error (.auth msg (some status) (some errorData)))
      else if status = 402 then
        .done (.error (.insufficientCredits msg (some status) (some errorData)))
      else
        -- the generic APIError thrown at line 203 is caught at line 208 and
        -- treated as retryable
        transientStep msg attempt isLast
    else
      match body with
      | some j => .done (.ok j)
      | none => transientStep jsonParseErrMsg attempt isLast
  | .abortErr =>
    -- line 210-212: an AbortError becomes an APIError thrown from the inner
    -- catch, which the outer catch (line 229) then treats as retryable
    let t := cfg.timeout
    transientStep s!"Request timeout after {t}ms" attempt isLast
  | .networkErr m => transientStep m attempt isLast

/-- The final throw at lines 247-249:
`Request failed after ${maxRetries} retries: ${lastError?.message || 'Unknown error'}`. -/
def finalMsg (maxRetries : Nat) (lastErr : Option String) : String :=
  let m := jsOrS lastErr "Unknown error"
  s!"Request failed after {maxRetries} retries: {m}"

/-- The retry loop.  `remaining` is the number of attempts still allowed
(including the current one); `attempt` is the current attempt number;
`lastErr` is `lastError?.message`.  Returns the result, the number of
network calls made, and the list of waited delays in ms. -/
def makeRequestLoop (cfg : Config) (transport : Nat → FetchOutcome) :
    Nat → Nat → Option String → Except TPError Json × Nat × List Nat
  | 0, _, lastErr =>
    (.error (.api (finalMsg cfg.maxRetries lastErr) none none), 0, [])
  | r + 1, attempt, lastErr =>
    match processAttempt cfg (transport attempt) attempt (r == 0) with
    | .done res => (res, 1, [])
    | .retryAfterWait w m =>
      let next := makeRequestLoop cfg transport r (attempt + 1)
        (match m with | some s => some s | none => lastErr)
      (next.1, next.2.1 + 1, w.timeoutMs :: next.2.2)
    | .fallthrough msg =>
      (.error (.api (finalMsg cfg.maxRetries (some msg)) none none), 1, [])

/-- The executor `makeRequest`: attempts are numbered `0 .. maxRetries` inclusive.
`transport` gives the fetch outcome of each attempt number. -/
def makeRequest (cfg : Config) (transport : Nat → FetchOutcome) :
    Except TPError Json × Nat × List Nat :=
  makeRequestLoop cfg transport (cfg.maxRetries + 1) 0 none

/-- The executor together with the in-flight counter bookkeeping:
`this.activeRequests++` at line 97 on admission, and the unconditional
`finally { this.activeRequests--; }` at lines 250-252, which runs whether
the body returned or threw.  Returns the call's outcome and the counter
after the call settles. -/
def makeRequestTracked (cfg : Config) (transport : Nat → FetchOutcome) (active : Int) :
    (Except TPError Json × Nat × List Nat) × Int :=
  let admitted := active + 1
  let body := makeRequest cfg transport
  (body, admitted - 1)

/-- Final counter value after a sequence of settled `makeRequest` calls. -/
def runAll (calls : List (Config × (Nat → FetchOutcome))) (active : Int) : Int :=
  calls.foldl (fun acc c => (makeRequestTracked c.1 c.2 acc).2) active

/-! ## translateBatch (src/client.ts lines 295-308) -/

/-- The `translateBatch` pre-flight validation followed by delegation to the
executor.  Returns the result and the number of network calls made. -/
def translateBatch (cfg : Config) (transport : Nat → FetchOutcome) (texts : List String) :
    Except TPError Json × Nat :=
  if texts.length = 0 then
    (.error (.validation "Texts array cannot be empty"), 0)
  else if texts.length > 100 then
    (.error (.validation "Maximum 100 texts allowed per batch request"), 0)
  else
    let r := makeRequest cfg transport
    (r.1, r.2.1)

/-! ## translateConcurrent (src/client.ts lines 553-565) -/

/-- One output slot of `translateConcurrent`: either the resolved
translation, or the `{ error: error.message }` object substituted by the
per-item `.catch`. -/
inductive TCSlot where
  | ok (r : Json)
  | err (msg : String)
deriving Repr, DecidableEq

/-- The fan-out of `texts.map(...)`: the promise at position `i` translates
`texts[i]`; `oracle i t` is the settled outcome of that call. -/
def translateConcurrentGo (oracle : Nat → String → Except TPError Json) :
    Nat → List String → List TCSlot
  | _, [] => []
  | i, t :: ts =>
    (match oracle i t with
      | .ok r => TCSlot.ok r
      | .error e => TCSlot.err e.message) :: translateConcurrentGo oracle (i + 1) ts

/-- The fan-out `translateConcurrent`: map each text to a translate call whose failure is
captured inline by `.catch`, then `Promise.all`, which pairs slot `i` with
the promise built from `texts[i]`. -/
def translateConcurrent (texts : List String)
    (oracle : Nat → String → Except TPError Json) : List TCSlot :=
  translateConcurrentGo oracle 0 texts

/-! ## downloadI18nFile (src/client.ts lines 506-524) -/

/-- Outcome of the single direct `fetch` in `downloadI18nFile`. -/
inductive DlOutcome where
  | response (status : Nat) (body : Option Json) (bytes : List Nat)
  | transportErr (msg : String)
deriving Repr, DecidableEq

/-- What a call can throw: a library error, or a raw runtime error
(propagated unwrapped, since `downloadI18nFile` has no catch). -/
inductive JsThrow where
  | tp (e : TPError)
  | raw (msg : String)
deriving Repr, DecidableEq

/-- The method `downloadI18nFile`: one direct `fetch` (no retry loop, no admission
gate, no counter update — the method never touches `activeRequests`),
`TranslatePlusAPIError` on any status ≥ 400, bytes otherwise.  Returns the
result, the number of network calls, and the (unchanged) counter. -/
def downloadI18nFile (o : DlOutcome) (active : Int) :
    Except JsThrow (List Nat) × Nat × Int :=
  match o with
  | .transportErr m => (.error (.raw m), 1, active)
  | .response status body bytes =>
    if 400 ≤ status then
      let errorData := body.getD {}
      let msg := errMessageOf status body
      (.error (.tp (.api msg (some status) (some errorData))), 1, active)
    else
      (.ok bytes, 1, active)

/-! ## Constructor (src/client.ts lines 68-78) -/

/-- The options object accepted by the constructor; `none` models an absent
field. -/
structure ClientOptions where
  apiKey : String
  baseUrl : Option String := none
  timeout : Option Int := none
  maxRetries : Option Int := none
  maxConcurrent : Option Int := none
deriving Repr, DecidableEq

/-- The constructed client's configuration fields. -/
structure TranslatePlusClient where
  apiKey : String
  baseUrl : String
  timeout : Int
  maxRetries : Int
  maxConcurrent : Int
deriving Repr, DecidableEq

/-- Model of `.replace(/\/$/, '')`: strip one trailing slash. -/
def stripTrailingSlash (s : String) : String :=
  match s.toList.reverse with
  | '/' :: rest => String.mk rest.reverse
  | _ => s

/-- The constructor: rejects a falsy (empty) apiKey, then applies `||`
defaulting to every option — so explicit `0` (falsy) and explicit `''`
(falsy) receive the default, exactly like an absent field. -/
def mkClient (o : ClientOptions) : Except TPError TranslatePlusClient :=
  if o.apiKey = "" then .error (.validation "API key is required")
  else .ok
    { apiKey := o.apiKey
      baseUrl := stripTrailingSlash (jsOrS o.baseUrl "https://api.translateplus.io")
      timeout := jsOrI o.timeout 30000
      maxRetries := jsOrI o.maxRetries 3
      maxConcurrent := jsOrI o.maxConcurrent 5 }

/-! ## Interleaving model of the admission gate (src/client.ts lines 93-97)

JavaScript is single-threaded: the admission check
`while (activeRequests >= maxConcurrent) await sleep(10)` and the
increment `activeRequests++` run in one synchronous segment (no `await`
between the final check and the increment), so admission is an atomic
test-and-increment.  Network I/O and backoff sleeps are suspension
points.  `downloadI18nFile` issues its fetch without the gate and without
touching the counter. -/

/-- Phase of one logical request. -/
inductive Phase where
  | waiting
  | inflight
  | backoff
  | done
deriving Repr, DecidableEq

/-- One logical request: whether it is a `downloadI18nFile` call (which
bypasses the gate), and its current phase. -/
structure RTask where
  isDownload : Bool
  phase : Phase
deriving Repr, DecidableEq

/-- Global state of one client instance under concurrent load. -/
structure Sys where
  maxConcurrent : Nat
  active : Nat
  tasks : List RTask
deriving Repr, DecidableEq

/-- Is this task's network call in flight (any kind of task)? -/
def pInflight (t : RTask) : Bool :=
  t.phase == Phase.inflight

/-- Is this an executor-managed (non-download) request currently admitted —
in flight or sleeping between attempts?  The `activeRequests` counter is
meant to track exactly these. -/
def pManaged (t : RTask) : Bool :=
  !t.isDownload && (t.phase == Phase.inflight || t.phase == Phase.backoff)

/-- Is this an executor-managed request whose network call is in flight? -/
def pManagedInflight (t : RTask) : Bool :=
  !t.isDownload && t.phase == Phase.inflight

/-- Number of in-flight network calls (any kind). -/
def countInflight (ts : List RTask) : Nat :=
  ts.countP pInflight

/-- Number of executor-managed requests currently admitted. -/
def countManaged (ts : List RTask) : Nat :=
  ts.countP pManaged

/-- Number of executor-managed requests whose network call is in flight. -/
def countManagedInflight (ts : List RTask) : Nat :=
  ts.countP pManagedInflight

/-- Interleaved small-step semantics of one client instance. -/
inductive Step : Sys → Sys → Prop where
  | admitReq (s : Sys) (i : Nat) (t : RTask)
      (hg : s.tasks[i]? = some t) (hw : t.phase = .waiting) (hd : t.isDownload = false)
      (hc : s.active < s.maxConcurrent) :
      Step s ⟨s.maxConcurrent, s.active + 1, s.tasks.set i ⟨false, .inflight⟩⟩
  | startDownload (s : Sys) (i : Nat) (t : RTask)
      (hg : s.tasks[i]? = some t) (hw : t.phase = .waiting) (hd : t.isDownload = true) :
      Step s ⟨s.maxConcurrent, s.active, s.tasks.set i ⟨true, .inflight⟩⟩
  | pause (s : Sys) (i : Nat) (t : RTask)
      (hg : s.tasks[i]? = some t) (hf : t.phase = .inflight) (hd : t.isDownload = false) :
      Step s ⟨s.maxConcurrent, s.active, s.tasks.set i ⟨false, .backoff⟩⟩
  | resume (s : Sys) (i : Nat) (t : RTask)
      (hg : s.tasks[i]? = some t) (hf : t.phase = .backoff) (hd : t.isDownload = false) :
      Step s ⟨s.maxConcurrent, s.active, s.tasks.set i ⟨false, .inflight⟩⟩
  | finish (s : Sys) (i : Nat) (t : RTask)
      (hg : s.tasks[i]? = some t) (hf : t.phase = .inflight) (hd : t.isDownload = false) :
      Step s ⟨s.maxConcurrent, s.active - 1, s.tasks.set i ⟨false, .done⟩⟩
  | finishDownload (s : Sys) (i : Nat) (t : RTask)
      (hg : s.tasks[i]? = some t) (hf : t.phase = .inflight) (hd : t.isDownload = true) :
      Step s ⟨s.maxConcurrent, s.active, s.tasks.set i ⟨true, .done⟩⟩

/-- Reflexive-transitive closure of `Step`. -/
inductive Steps : Sys → Sys → Prop where
  | refl (s : Sys) : Steps s s
  | tail {s t u : Sys} (h1 : Steps s t) (h2 : Step t u) : Steps s u

/-- An initial state: counter 0, every logical request still waiting. -/
def SysInit (s : Sys) : Prop :=
  s.active = 0 ∧ ∀ t ∈ s.tasks, t.phase = Phase.waiting

/-! ## Helper lemmas -/

/-- A `.done` step of an attempt never carries a validation error: an
attempt only resolves to `ok`, `auth`, or `insufficientCredits` results. -/
lemma processAttempt_done_no_validation (cfg : Config) (o : FetchOutcome)
    (attempt : Nat) (isLast : Bool) (e : TPError)
    (h : processAttempt cfg o attempt isLast = .done (.error e)) :
    e.isValidation = false := by
  cases o with
  | response status hdr body =>
    cases body <;> cases isLast <;>
    · simp only [processAttempt, transientStep, cond_true, cond_false] at h
      split_ifs at h <;>
        first
          | (simp only [AttemptStep.done.injEq, Except.error.injEq] at h
             subst h
             rfl)
          | simp_all [TPError.isValidation]
  | abortErr =>
    cases isLast <;>
    · simp only [processAttempt, transientStep, cond_true, cond_false] at h
      simp_all [TPError.isValidation]
  | networkErr m =>
    cases isLast <;>
    · simp only [processAttempt, transientStep, cond_true, cond_false] at h
      simp_all [TPError.isValidation]

/-- The retry loop never produces a validation error. -/
lemma makeRequestLoop_no_validation (cfg : Config) (transport : Nat → FetchOutcome) :
    ∀ (r a : Nat) (le : Option String) (e : TPError),
      (makeRequestLoop cfg transport r a le).1 = .error e → e.isValidation = false := by
  intro r
  induction r with
  | zero =>
    intro a le e h
    simp only [makeRequestLoop, Except.error.injEq] at h
    subst h
    rfl
  | succ k ih =>
    intro a le e h
    rw [makeRequestLoop] at h
    cases hpa : processAttempt cfg (transport a) a (k == 0) with
    | done res =>
      rw [hpa] at h
      simp only at h
      exact processAttempt_done_no_validation cfg (transport a) a (k == 0) e (by rw [hpa, h])
    | retryAfterWait w m =>
      rw [hpa] at h
      simp only at h
      exact ih (a + 1) _ e h
    | fallthrough msg =>
      rw [hpa] at h
      simp only [Except.error.injEq] at h
      subst h
      rfl

/-- When every attempt of the loop resolves to the same transient step, the
loop uses all remaining attempts and ends in the final generic API error. -/
lemma loop_const_transient (cfg : Config) (transport : Nat → FetchOutcome) (msg : String)
    (hmsg : ∀ (a : Nat) (isLast : Bool),
      processAttempt cfg (transport a) a isLast = transientStep msg a isLast) :
    ∀ (r a : Nat) (le : Option String),
      (makeRequestLoop cfg transport (r + 1) a le).1 =
        .error (.api (finalMsg cfg.maxRetries (some msg)) none none) ∧
      (makeRequestLoop cfg transport (r + 1) a le).2.1 = r + 1 := by
  intro r
  induction r with
  | zero =>
    intro a le
    rw [makeRequestLoop]
    rw [show ((0 : Nat) == 0) = true from rfl, hmsg a true]
    simp [transientStep]
  | succ k ih =>
    intro a le
    rw [makeRequestLoop]
    rw [show ((k + 1 : Nat) == 0) = false from rfl, hmsg a false]
    simp only [transientStep, cond_false]
    exact ⟨(ih (a + 1) (some msg)).1, by rw [(ih (a + 1) (some msg)).2]⟩

/-- When every attempt of the loop receives a 429 response, the loop uses
all remaining attempts (waiting between consecutive ones) and ends in the
final generic API error wrapping the rate-limit message. -/
lemma loop_const_429 (cfg : Config) (transport : Nat → FetchOutcome) (hdr : Option String)
    (body : Option Json)
    (ht : ∀ a : Nat, transport a = .response 429 hdr body) :
    ∀ (r a : Nat) (le : Option String),
      (makeRequestLoop cfg transport (r + 1) a le).1 =
        .error (.api (finalMsg cfg.maxRetries (some rateLimitMsg)) none none) ∧
      (makeRequestLoop cfg transport (r + 1) a le).2.1 = r + 1 ∧
      (makeRequestLoop cfg transport (r + 1) a le).2.2.length = r := by
  intro r
  induction r with
  | zero =>
    intro a le
    rw [makeRequestLoop, ht a]
    rw [show ((0 : Nat) == 0) = true from rfl]
    simp [processAttempt]
  | succ k ih =>
    intro a le
    rw [makeRequestLoop, ht a]
    rw [show ((k + 1 : Nat) == 0) = false from rfl]
    simp only [processAttempt, if_pos rfl, cond_false]
    refine ⟨(ih (a + 1) le).1, ?_, ?_⟩
    · show (makeRequestLoop cfg transport (k + 1) (a + 1) le).2.1 + 1 = k + 1 + 1
      rw [(ih (a + 1) le).2.1]
    · show (JsNum.timeoutMs _ :: (makeRequestLoop cfg transport (k + 1) (a + 1) le).2.2).length
        = k + 1
      rw [List.length_cons, (ih (a + 1) le).2.2]

/-- Fan-out length is the input length. -/
lemma translateConcurrentGo_length (oracle : Nat → String → Except TPError Json) :
    ∀ (ts : List String) (i : Nat), (translateConcurrentGo oracle i ts).length = ts.length := by
  intro ts
  induction ts with
  | nil => intro i; rfl
  | cons t ts ih =>
    intro i
    simp only [translateConcurrentGo, List.length_cons, ih (i + 1)]

/-- Slot `j` of the fan-out started at index `i` is built from `texts[j]`
and the outcome of the call issued for absolute index `i + j`. -/
lemma translateConcurrentGo_get (oracle : Nat → String → Except TPError Json) :
    ∀ (ts : List String) (i j : Nat) (t : String), ts[j]? = some t →
      (translateConcurrentGo oracle i ts)[j]? =
        some (match oracle (i + j) t with
          | .ok r => TCSlot.ok r
          | .error e => TCSlot.err e.message) := by
  intro ts
  induction ts with
  | nil => intro i j t h; simp at h
  | cons x xs ih =>
    intro i j t h
    cases j with
    | zero =>
      simp only [List.getElem?_cons_zero, Option.some.injEq] at h
      subst h
      rw [translateConcurrentGo]
      simp only [List.getElem?_cons_zero, Nat.add_zero]
    | succ m =>
      simp only [List.getElem?_cons_succ] at h
      rw [translateConcurrentGo]
      simp only [List.getElem?_cons_succ]
      rw [ih (i + 1) m t h]
      have : i + 1 + m = i + (m + 1) := by omega
      rw [this]

/-- Counting after replacing the element at a valid index, in addition form
(avoids truncated subtraction). -/
lemma countP_set_add (p : RTask → Bool) :
    ∀ (ts : List RTask) (i : Nat) (t t' : RTask), ts[i]? = some t →
      (ts.set i t').countP p + (if p t then 1 else 0) =
        ts.countP p + (if p t' then 1 else 0) := by
  intro ts
  induction ts with
  | nil => intro i t t' h; simp at h
  | cons x xs ih =>
    intro i t t' h
    cases i with
    | zero =>
      simp only [List.getElem?_cons_zero, Option.some.injEq] at h
      subst h
      simp only [List.set_cons_zero, List.countP_cons]
      omega
    | succ m =>
      simp only [List.getElem?_cons_succ] at h
      simp only [List.set_cons_succ, List.countP_cons]
      have := ih m t t' h
      omega

/-- Counting is monotone in the predicate. -/
lemma countP_le_of_imp (p q : RTask → Bool) (hpq : ∀ t, p t = true → q t = true) :
    ∀ ts : List RTask, ts.countP p ≤ ts.countP q := by
  intro ts
  induction ts with
  | nil => simp
  | cons x xs ih =>
    simp only [List.countP_cons]
    by_cases hx : p x = true
    · rw [hx, hpq x hx]
      omega
    · have : (if p x = true then 1 else 0) = 0 := by simp [hx]
      rw [this]
      have : (if q x = true then 1 else 0) ≤ 1 := by split <;> omega
      omega

/-- The executor's counter invariant: `active` counts exactly the admitted,
unfinished, executor-managed requests, and never exceeds `maxConcurrent`. -/
def SysInv (s : Sys) : Prop :=
  s.active = countManaged s.tasks ∧ s.active ≤ s.maxConcurrent

/-- The invariant holds initially. -/
lemma sysInv_init (s : Sys) (h : SysInit s) : SysInv s := by
  obtain ⟨ha, hw⟩ := h
  constructor
  · rw [ha]
    symm
    rw [countManaged, List.countP_eq_zero]
    intro t ht
    simp [pManaged, hw t ht]
  · rw [ha]
    exact Nat.zero_le _

/-- Every step preserves the counter invariant. -/
lemma sysInv_step (s u : Sys) (hInv : SysInv s) (hst : Step s u) : SysInv u := by
  unfold SysInv countManaged at hInv ⊢
  obtain ⟨hc, hle⟩ := hInv
  cases hst with
  | admitReq i t hg hw hd hcap =>
    have hset := countP_set_add pManaged s.tasks i t ⟨false, Phase.inflight⟩ hg
    obtain ⟨d, ph⟩ := t
    simp only at hw hd
    subst hw
    subst hd
    rw [show (if pManaged ⟨false, Phase.waiting⟩ = true then 1 else 0) = 0 from rfl,
        show (if pManaged ⟨false, Phase.inflight⟩ = true then 1 else 0) = 1 from rfl] at hset
    dsimp only
    omega
  | startDownload i t hg hw hd =>
    have hset := countP_set_add pManaged s.tasks i t ⟨true, Phase.inflight⟩ hg
    obtain ⟨d, ph⟩ := t
    simp only at hw hd
    subst hw
    subst hd
    rw [show (if pManaged ⟨true, Phase.waiting⟩ = true then 1 else 0) = 0 from rfl,
        show (if pManaged ⟨true, Phase.inflight⟩ = true then 1 else 0) = 0 from rfl] at hset
    dsimp only
    omega
  | pause i t hg hf hd =>
    have hset := countP_set_add pManaged s.tasks i t ⟨false, Phase.backoff⟩ hg
    obtain ⟨d, ph⟩ := t
    simp only at hf hd
    subst hf
    subst hd
    rw [show (if pManaged ⟨false, Phase.inflight⟩ = true then 1 else 0) = 1 from rfl,
        show (if pManaged ⟨false, Phase.backoff⟩ = true then 1 else 0) = 1 from rfl] at hset
    dsimp only
    omega
  | resume i t hg hf hd =>
    have hset := countP_set_add pManaged s.tasks i t ⟨false, Phase.inflight⟩ hg
    obtain ⟨d, ph⟩ := t
    simp only at hf hd
    subst hf
    subst hd
    rw [show (if pManaged ⟨false, Phase.backoff⟩ = true then 1 else 0) = 1 from rfl,
        show (if pManaged ⟨false, Phase.inflight⟩ = true then 1 else 0) = 1 from rfl] at hset
    dsimp only
    omega
  | finish i t hg hf hd =>
    have hset := countP_set_add pManaged s.tasks i t ⟨false, Phase.done⟩ hg
    obtain ⟨d, ph⟩ := t
    simp only at hf hd
    subst hf
    subst hd
    rw [show (if pManaged ⟨false, Phase.inflight⟩ = true then 1 else 0) = 1 from rfl,
        show (if pManaged ⟨false, Phase.done⟩ = true then 1 else 0) = 0 from rfl] at hset
    dsimp only
    omega
  | finishDownload i t hg hf hd =>
    have hset := countP_set_add pManaged s.tasks i t ⟨true, Phase.done⟩ hg
    obtain ⟨d, ph⟩ := t
    simp only at hf hd
    subst hf
    subst hd
    rw [show (if pManaged ⟨true, Phase.inflight⟩ = true then 1 else 0) = 0 from rfl,
        show (if pManaged ⟨true, Phase.done⟩ = true then 1 else 0) = 0 from rfl] at hset
    dsimp only
    omega

/-- The counter invariant holds in every reachable state. -/
lemma sysInv_steps (s u : Sys) (h : Steps s u) (h0 : SysInv s) : SysInv u := by
  induction h with
  | refl => exact h0
  | tail h1 h2 ih => exact sysInv_step _ _ ih h2

/-- Does the call's outcome carry a rate-limit error? -/
def resultIsRateLimit : Except TPError Json → Bool
  | .error (.rateLimit _ _ _) => true
  | _ => false

/-! ## Claim theorems -/

/-- C10: constructing the client with `timeout`, `maxRetries` or
`maxConcurrent` explicitly 0, or `baseUrl` explicitly empty, yields the
defaults (30000, 3, 5, production origin), exactly as if the fields were
absent, because `||` treats 0 and `''` as falsy. -/
theorem C10_zero_overrides_get_defaults (key : String) (hk : key ≠ "") :
    mkClient ⟨key, some "", some 0, some 0, some 0⟩ =
      .ok ⟨key, "https://api.translateplus.io", 30000, 3, 5⟩ ∧
    mkClient ⟨key, none, none, none, none⟩ =
      .ok ⟨key, "https://api.translateplus.io", 30000, 3, 5⟩ := by
  constructor
  · simp only [mkClient, if_neg hk]
    rw [show stripTrailingSlash (jsOrS (some "") "https://api.translateplus.io") =
          "https://api.translateplus.io" from by decide]
    rfl
  · simp only [mkClient, if_neg hk]
    rw [show stripTrailingSlash (jsOrS none "https://api.translateplus.io") =
          "https://api.translateplus.io" from by decide]
    rfl

/-- Witness for C10 at the concrete key "my-key". -/
theorem C10_zero_overrides_get_defaults_witness :
    mkClient ⟨"my-key", some "", some 0, some 0, some 0⟩ =
      .ok ⟨"my-key", "https://api.translateplus.io", 30000, 3, 5⟩ :=
  (C10_zero_overrides_get_defaults "my-key" (by decide)).1

/-- C9: `downloadI18nFile` performs exactly one network call for every
outcome (no retry on any status or transport failure), leaves the in-flight
counter untouched, and maps every status ≥ 400 to the generic API error
kind carrying that status and the decoded payload — never to the
authentication, credits, or rate-limit kinds. -/
theorem C9_downloadI18nFile_single_call (o : DlOutcome) (active : Int) :
    (downloadI18nFile o active).2.1 = 1 ∧
    (downloadI18nFile o active).2.2 = active ∧
    (∀ (status : Nat) (body : Option Json) (bytes : List Nat),
      o = .response status body bytes → 400 ≤ status →
      (downloadI18nFile o active).1 =
        .error (.tp (.api (errMessageOf status body) (some status) (some (body.getD {}))))) ∧
    (∀ e : TPError, (downloadI18nFile o active).1 = .error (.tp e) → e.isGenericApi = true) := by
  refine ⟨?_, ?_, ?_, ?_⟩
  · cases o with
    | transportErr m => rfl
    | response st b bs =>
      simp only [downloadI18nFile]
      split <;> rfl
  · cases o with
    | transportErr m => rfl
    | response st b bs =>
      simp only [downloadI18nFile]
      split <;> rfl
  · intro status body bytes he hs
    subst he
    simp only [downloadI18nFile, if_pos hs]
  · intro e he
    cases o with
    | transportErr m => simp [downloadI18nFile] at he
    | response st b bs =>
      simp only [downloadI18nFile] at he
      split at he
      · simp only [Except.error.injEq, JsThrow.tp.injEq] at he
        subst he
        rfl
      · simp at he

/-- Witness for C9 at a concrete 500 response. -/
theorem C9_downloadI18nFile_single_call_witness :
    (downloadI18nFile (.response 500 (some ⟨some "nope"⟩) [7]) 2).2.1 = 1 ∧
    (downloadI18nFile (.response 500 (some ⟨some "nope"⟩) [7]) 2).1 =
      .error (.tp (.api "nope" (some 500) (some ⟨some "nope"⟩))) := by
  have h := C9_downloadI18nFile_single_call (.response 500 (some ⟨some "nope"⟩) [7]) 2
  refine ⟨h.1, ?_⟩
  rw [h.2.2.1 500 (some ⟨some "nope"⟩) [7] rfl (by decide)]
  decide

/-- C8: `translateBatch` rejects a texts array of length 0 or > 100 with a
validation error and zero network calls; for lengths 1..100 it never
produces a validation error (the executor only raises API-derived kinds). -/
theorem C8_translateBatch_length_validation (cfg : Config)
    (transport : Nat → FetchOutcome) (texts : List String) :
    (texts.length = 0 ∨ texts.length > 100 →
      (translateBatch cfg transport texts).2 = 0 ∧
      ∃ m, (translateBatch cfg transport texts).1 = .error (.validation m)) ∧
    (1 ≤ texts.length → texts.length ≤ 100 →
      ∀ e : TPError, (translateBatch cfg transport texts).1 = .error e →
        e.isValidation = false) := by
  constructor
  · rintro (h0 | h100)
    · rw [show translateBatch cfg transport texts =
          (.error (.validation "Texts array cannot be empty"), 0) from by
            simp only [translateBatch, if_pos h0]]
      exact ⟨rfl, "Texts array cannot be empty", rfl⟩
    · rw [show translateBatch cfg transport texts =
          (.error (.validation "Maximum 100 texts allowed per batch request"), 0) from by
            simp only [translateBatch]
            rw [if_neg (by omega), if_pos h100]]
      exact ⟨rfl, "Maximum 100 texts allowed per batch request", rfl⟩
  · intro h1 h100 e he
    simp only [translateBatch] at he
    rw [if_neg (by omega), if_neg (by omega)] at he
    exact makeRequestLoop_no_validation cfg transport (cfg.maxRetries + 1) 0 none e he

/-- Witness for C8: the empty array is rejected without a network call, and
a singleton array does not produce a validation error. -/
theorem C8_translateBatch_length_validation_witness :
    (translateBatch ⟨30000, 3, 5⟩ (fun _ => .response 200 none (some ⟨none⟩)) []).2 = 0 ∧
    ∀ e : TPError,
      (translateBatch ⟨30000, 3, 5⟩ (fun _ => .response 200 none (some ⟨none⟩)) ["Hello"]).1 =
        .error e → e.isValidation = false := by
  constructor
  · exact ((C8_translateBatch_length_validation ⟨30000, 3, 5⟩
      (fun _ => .response 200 none (some ⟨none⟩)) []).1 (Or.inl rfl)).1
  · exact (C8_translateBatch_length_validation ⟨30000, 3, 5⟩
      (fun _ => .response 200 none (some ⟨none⟩)) ["Hello"]).2 (by decide) (by decide)

/-- C7: `translateConcurrent` returns one slot per input text, in input
order: slot `i` is the success result of translating `texts[i]` when that
call succeeds, and an `{ error: message }` indicator when it fails — the
batch itself never raises (by construction it returns a total list of
slots). -/
theorem C7_translateConcurrent_slots (texts : List String)
    (oracle : Nat → String → Except TPError Json) :
    (translateConcurrent texts oracle).length = texts.length ∧
    ∀ (i : Nat) (t : String), texts[i]? = some t →
      (translateConcurrent texts oracle)[i]? =
        some (match oracle i t with
          | .ok r => TCSlot.ok r
          | .error e => TCSlot.err e.message) := by
  constructor
  · exact translateConcurrentGo_length oracle texts 0
  · intro i t h
    have hg := translateConcurrentGo_get oracle texts 0 i t h
    rwa [Nat.zero_add] at hg

/-- Witness for C7: "A" succeeds, "B" fails — two slots, in input order. -/
theorem C7_translateConcurrent_slots_witness :
    (translateConcurrent ["A", "B"]
        (fun i _ => if i = 0 then .ok ⟨some "Bonjour"⟩
          else .error (.api "boom" (some 500) none))).length = 2 ∧
    (translateConcurrent ["A", "B"]
        (fun i _ => if i = 0 then .ok ⟨some "Bonjour"⟩
          else .error (.api "boom" (some 500) none)))[0]? = some (.ok ⟨some "Bonjour"⟩) ∧
    (translateConcurrent ["A", "B"]
        (fun i _ => if i = 0 then .ok ⟨some "Bonjour"⟩
          else .error (.api "boom" (some 500) none)))[1]? = some (.err "boom") := by
  have h := C7_translateConcurrent_slots ["A", "B"]
    (fun i _ => if i = 0 then .ok ⟨some "Bonjour"⟩ else .error (.api "boom" (some 500) none))
  refine ⟨h.1, ?_, ?_⟩
  · rw [h.2 0 "A" rfl]
    decide
  · rw [h.2 1 "B" rfl]
    decide

/-- C6: a 401 or 403 response makes the executor raise an authentication
error, and a 402 response an insufficient-credits error, each on the first
occurrence: exactly one network call, no retry, no wait, for every retry
budget — the catch blocks rethrow exactly these two error kinds. -/
theorem C6_auth_credits_never_retried (cfg : Config) (transport : Nat → FetchOutcome)
    (status : Nat) (hdr : Option String) (body : Option Json)
    (ht : transport 0 = .response status hdr body) :
    (status = 401 ∨ status = 403 →
      makeRequest cfg transport =
        (.error (.auth (errMessageOf status body) (some status) (some (body.getD {}))), 1, [])) ∧
    (status = 402 →
      makeRequest cfg transport =
        (.error (.insufficientCredits (errMessageOf status body) (some status)
          (some (body.getD {}))), 1, [])) := by
  constructor
  · rintro (rfl | rfl) <;>
    · simp only [makeRequest, makeRequestLoop, ht]
      simp [processAttempt, errMessageOf]
  · rintro rfl
    simp only [makeRequest, makeRequestLoop, ht]
    simp [processAttempt, errMessageOf]

/-- Witness for C6 at concrete 403 and 402 responses. -/
theorem C6_auth_credits_never_retried_witness :
    makeRequest ⟨30000, 3, 5⟩ (fun _ => .response 403 none (some ⟨some "Invalid API key"⟩)) =
      (.error (.auth "Invalid API key" (some 403) (some ⟨some "Invalid API key"⟩)), 1, []) ∧
    makeRequest ⟨30000, 3, 5⟩ (fun _ => .response 402 none none) =
      (.error (.insufficientCredits "API error: 402" (some 402) (some ⟨none⟩)), 1, []) := by
  constructor
  · rw [(C6_auth_credits_never_retried ⟨30000, 3, 5⟩
      (fun _ => .response 403 none (some ⟨some "Invalid API key"⟩)) 403 none
      (some ⟨some "Invalid API key"⟩) rfl).1 (Or.inr rfl)]
    decide
  · rw [(C6_auth_credits_never_retried ⟨30000, 3, 5⟩
      (fun _ => .response 402 none none) 402 none none rfl).2 rfl]
    decide

/-- C2: the in-flight counter is incremented once on admission and
decremented once when the call settles by any path (the `finally` applies
to both the returned and the thrown outcomes), so each call leaves the
counter unchanged, any sequence of settled calls started at 0 ends at 0,
and in the interleaved model every reachable state in which all logical
requests are done has counter 0. -/
theorem C2_inflight_counter_balanced :
    (∀ (cfg : Config) (transport : Nat → FetchOutcome) (active : Int),
      (makeRequestTracked cfg transport active).2 = active) ∧
    (∀ calls : List (Config × (Nat → FetchOutcome)), runAll calls 0 = 0) ∧
    (∀ s0 s : Sys, SysInit s0 → Steps s0 s →
      (∀ t ∈ s.tasks, t.phase = Phase.done) → s.active = 0) := by
  have hone : ∀ (cfg : Config) (transport : Nat → FetchOutcome) (active : Int),
      (makeRequestTracked cfg transport active).2 = active := by
    intro cfg t a
    simp [makeRequestTracked]
  refine ⟨hone, ?_, ?_⟩
  · have hgen : ∀ (calls : List (Config × (Nat → FetchOutcome))) (a : Int),
        runAll calls a = a := by
      intro calls
      induction calls with
      | nil => intro a; rfl
      | cons c cs ih =>
        intro a
        have hstep : runAll (c :: cs) a = runAll cs ((makeRequestTracked c.1 c.2 a).2) := rfl
        rw [hstep, hone c.1 c.2 a]
        exact ih a
    exact fun calls => hgen calls 0
  · intro s0 s h0 hs hdone
    have hinv : s.active = countManaged s.tasks ∧ s.active ≤ s.maxConcurrent :=
      sysInv_steps s0 s hs (sysInv_init s0 h0)
    have hz : countManaged s.tasks = 0 := by
      rw [countManaged, List.countP_eq_zero]
      intro t ht
      simp [pManaged, hdone t ht]
    rw [hinv.1, hz]

/-- Witness for C2's system-level conjunct at a concrete settled state. -/
theorem C2_inflight_counter_balanced_witness :
    Sys.active ⟨5, 0, []⟩ = 0 :=
  C2_inflight_counter_balanced.2.2 ⟨5, 0, []⟩ ⟨5, 0, []⟩ ⟨rfl, by simp⟩
    (Steps.refl _) (by simp)

/-- C1 (amended): a response status ≥ 400 other than 401/402/403/429 is NOT
raised immediately: the generic APIError it produces is caught by the
executor's own catch block and treated as retryable, so with every attempt
returning such a status the executor makes maxRetries + 1 network calls and
finally raises the retry-exhaustion generic API error, which wraps the last
error's message but carries neither the HTTP status nor the payload. -/
theorem C1_generic_error_retried (tmo : Int) (mr mc status : Nat) (body : Option Json)
    (h400 : 400 ≤ status) (h401 : status ≠ 401) (h402 : status ≠ 402)
    (h403 : status ≠ 403) (h429 : status ≠ 429) :
    (makeRequest ⟨tmo, mr, mc⟩ (fun _ => .response status none body)).1 =
      .error (.api (finalMsg mr (some (errMessageOf status body))) none none) ∧
    (makeRequest ⟨tmo, mr, mc⟩ (fun _ => .response status none body)).2.1 = mr + 1 := by
  have hor : ¬(status = 401 ∨ status = 403) := by
    rintro (h | h)
    · exact h401 h
    · exact h403 h
  have hmsg : ∀ (a : Nat) (isLast : Bool),
      processAttempt ⟨tmo, mr, mc⟩ ((fun _ => FetchOutcome.response status none body) a) a
          isLast =
        transientStep (errMessageOf status body) a isLast := by
    intro a isLast
    simp only [processAttempt]
    rw [if_neg h429, if_pos h400, if_neg hor, if_neg h402]
  exact loop_const_transient ⟨tmo, mr, mc⟩ _ _ hmsg mr 0 none

/-- Witness for C1's amended theorem at a concrete 500 response. -/
theorem C1_generic_error_retried_witness :
    (makeRequest ⟨30000, 3, 5⟩ (fun _ => .response 500 none (some ⟨some "boom"⟩))).1 =
      .error (.api "Request failed after 3 retries: boom" none none) ∧
    (makeRequest ⟨30000, 3, 5⟩ (fun _ => .response 500 none (some ⟨some "boom"⟩))).2.1 =
      3 + 1 := by
  have h := C1_generic_error_retried 30000 3 5 500 (some ⟨some "boom"⟩)
    (by decide) (by decide) (by decide) (by decide) (by decide)
  refine ⟨?_, h.2⟩
  rw [h.1]
  decide

/-- Counterexample to C1 as stated: with maxRetries = 3 and every attempt
returning status 500 with payload `{detail: "boom"}`, the executor makes 4
network calls, not 1, and the error finally raised carries neither the
status 500 nor the payload. -/
theorem C1_counterexample_500_is_retried :
    (makeRequest ⟨30000, 3, 5⟩ (fun _ => .response 500 none (some ⟨some "boom"⟩))).2.1 = 4 ∧
    ((makeRequest ⟨30000, 3, 5⟩
        (fun _ => .response 500 none (some ⟨some "boom"⟩))).2.1 == 1) = false ∧
    (makeRequest ⟨30000, 3, 5⟩ (fun _ => .response 500 none (some ⟨some "boom"⟩))).1 =
      .error (.api "Request failed after 3 retries: boom" none none) := by
  refine ⟨by decide, by decide, by decide⟩

/-- C4 (amended): on a 429 received at an attempt below maxRetries, the
executor waits `setTimeoutMs(Math.min(parseInt(header || '2') * 1000,
2^attempt * 1000))` ms before the next attempt — equal to
min(retryAfterSeconds*1000, 2^attempt*1000) with the default 2 applying
only when the header is absent or empty; when the header is present but
unparseable, parseInt gives NaN, the computed delay is NaN and the actual
wait is 0 ms.  When the 429 arrives on attempt = maxRetries, there is no
wait, and what is raised after the loop is the generic retry-exhaustion
API error wrapping the rate-limit message (the thrown rate-limit error is
swallowed by the executor's own catch). -/
theorem C4_rate_limit_backoff (tmo : Int) (mr mc : Nat) (hdr : Option String) (j : Json)
    (hmr : 1 ≤ mr) :
    makeRequest ⟨tmo, mr, mc⟩
        (fun a => if a = 0 then .response 429 hdr none
          else .response 200 none (some j)) =
      (.ok j, 2, [(delay429 hdr 0).timeoutMs]) ∧
    (∀ a : Nat, delay429 none a = .int (min 2000 ((2 ^ a) * 1000))) ∧
    (delay429 (some "abc") 0 = .nan ∧ JsNum.timeoutMs .nan = 0) ∧
    ((makeRequest ⟨tmo, mr, mc⟩ (fun _ => .response 429 hdr none)).1 =
        .error (.api (finalMsg mr (some rateLimitMsg)) none none) ∧
      (makeRequest ⟨tmo, mr, mc⟩ (fun _ => .response 429 hdr none)).2.1 = mr + 1 ∧
      (makeRequest ⟨tmo, mr, mc⟩ (fun _ => .response 429 hdr none)).2.2.length = mr) := by
  refine ⟨?_, ?_, ⟨by decide, rfl⟩, ?_⟩
  · obtain ⟨k, rfl⟩ : ∃ k, mr = k + 1 := ⟨mr - 1, by omega⟩
    simp [makeRequest, makeRequestLoop, processAttempt,
      show ((k + 1 : Nat) == 0) = false from rfl]
  · intro a
    simp only [delay429]
    rw [show parseIntJS (retryAfterRaw none) = .int 2 from by decide]
    simp [JsNum.mulInt, JsNum.jsMin]
  · obtain ⟨h1, h2, h3⟩ := loop_const_429 ⟨tmo, mr, mc⟩
      (fun _ => .response 429 hdr none) hdr none (fun _ => rfl) mr 0 none
    exact ⟨h1, h2, h3⟩

/-- Witness for C4's amended theorem: with maxRetries = 1 and no
Retry-After header, one 429 then a 200 gives a single 1000 ms wait and
two calls; a constant 429 run makes 2 calls with 1 wait and ends in the
generic retry-exhaustion error. -/
theorem C4_rate_limit_backoff_witness :
    makeRequest ⟨30000, 1, 5⟩
        (fun a => if a = 0 then .response 429 none none
          else .response 200 none (some ⟨none⟩)) =
      (.ok ⟨none⟩, 2, [1000]) ∧
    (makeRequest ⟨30000, 1, 5⟩ (fun _ => .response 429 none none)).1 =
      .error (.api
        "Request failed after 1 retries: Rate limit exceeded. Please try again later."
        none none) := by
  have h := C4_rate_limit_backoff 30000 1 5 none ⟨none⟩ (by decide)
  constructor
  · rw [h.1]
    decide
  · rw [h.2.2.2.1]
    decide

/-- Counterexample to C4 as stated: with an unparseable `Retry-After: abc`
header on attempt 0, the claim predicts a wait of min(2*1000, 2^0*1000) =
1000 ms; the code computes NaN and waits 0 ms. -/
theorem C4_counterexample_unparseable_header :
    (makeRequest ⟨30000, 1, 5⟩
        (fun a => if a = 0 then .response 429 (some "abc") none
          else .response 200 none (some ⟨none⟩))).2.2 = [0] ∧
    ((makeRequest ⟨30000, 1, 5⟩
        (fun a => if a = 0 then .response 429 (some "abc") none
          else .response 200 none (some ⟨none⟩))).2.2 ==
      [min (2 * 1000) ((2 ^ 0) * 1000)]) = false ∧
    (makeRequest ⟨30000, 0, 5⟩ (fun _ => .response 429 (some "60") none)).1 =
      .error (.api
        "Request failed after 0 retries: Rate limit exceeded. Please try again later."
        none none) := by
  refine ⟨by decide, by decide, by decide⟩

/-- C5 at the spec's failing input: with maxRetries = 3 and every attempt
answering 429 with `Retry-After: 60`, the executor makes exactly 4 network
calls with increasing delays 1000, 2000, 4000 ms — but the error finally
raised is the generic `TranslatePlusAPIError` produced by the
retry-exhaustion throw (no status code, no payload), not the
`TranslatePlusRateLimitError` constructed on the last attempt, which the
executor's own catch block swallows into `lastError`. -/
theorem C5_rate_limit_exhaustion_behavior :
    (makeRequest ⟨30000, 3, 5⟩
        (fun _ => .response 429 (some "60") (some ⟨some "Rate limit exceeded"⟩))).2.1 =
      3 + 1 ∧
    (makeRequest ⟨30000, 3, 5⟩
        (fun _ => .response 429 (some "60") (some ⟨some "Rate limit exceeded"⟩))).2.2 =
      [1000, 2000, 4000] ∧
    (makeRequest ⟨30000, 3, 5⟩
        (fun _ => .response 429 (some "60") (some ⟨some "Rate limit exceeded"⟩))).1 =
      .error (.api
        "Request failed after 3 retries: Rate limit exceeded. Please try again later."
        none none) ∧
    resultIsRateLimit
      (makeRequest ⟨30000, 3, 5⟩
        (fun _ => .response 429 (some "60") (some ⟨some "Rate limit exceeded"⟩))).1 =
      false := by
  refine ⟨by decide, by decide, by decide, by decide⟩

/-- C3 (amended): for the logical requests that go through `makeRequest`
(every public operation except `downloadI18nFile`), the number of
concurrently in-flight network calls never exceeds `maxConcurrent`: in
every state reachable from an initial state, the executor-managed in-flight
count is bounded by the cap, because admission is an atomic
test-and-increment on the counter, which the invariant ties to the number
of admitted unfinished managed requests. -/
theorem C3_managed_concurrency_bounded (s0 s : Sys) (h0 : SysInit s0) (hs : Steps s0 s) :
    countManagedInflight s.tasks ≤ s.maxConcurrent := by
  have hinv : s.active = countManaged s.tasks ∧ s.active ≤ s.maxConcurrent :=
    sysInv_steps s0 s hs (sysInv_init s0 h0)
  have himp : ∀ t : RTask, pManagedInflight t = true → pManaged t = true := by
    intro t h
    simp only [pManagedInflight, Bool.and_eq_true] at h
    simp only [pManaged, Bool.and_eq_true, Bool.or_eq_true]
    exact ⟨h.1, Or.inl h.2⟩
  have hle := countP_le_of_imp pManagedInflight pManaged himp s.tasks
  rw [countManagedInflight]
  rw [countManaged] at hinv
  omega

/-- Witness for C3's amended theorem at a concrete initial state. -/
theorem C3_managed_concurrency_bounded_witness :
    countManagedInflight [⟨false, Phase.waiting⟩] ≤ 5 :=
  C3_managed_concurrency_bounded ⟨5, 0, [⟨false, Phase.waiting⟩]⟩
    ⟨5, 0, [⟨false, Phase.waiting⟩]⟩ ⟨rfl, by simp⟩ (Steps.refl _)

/-- Counterexample to C3 as stated (over all public operations): with
`maxConcurrent = 1`, one executor-managed request and one
`downloadI18nFile` request, the download issues its network call without
the admission gate, reaching a state with 2 concurrently in-flight network
calls from the same client instance. -/
theorem C3_counterexample_download_bypasses_gate :
    SysInit ⟨1, 0, [⟨false, Phase.waiting⟩, ⟨true, Phase.waiting⟩]⟩ ∧
    Steps ⟨1, 0, [⟨false, Phase.waiting⟩, ⟨true, Phase.waiting⟩]⟩
      ⟨1, 1, [⟨false, Phase.inflight⟩, ⟨true, Phase.inflight⟩]⟩ ∧
    countInflight [⟨false, Phase.inflight⟩, ⟨true, Phase.inflight⟩] = 2 ∧
    Sys.maxConcurrent ⟨1, 1, [⟨false, Phase.inflight⟩, ⟨true, Phase.inflight⟩]⟩ = 1 ∧
    ((2 : Nat) ≤ 1) = False := by
  refine ⟨⟨rfl, ?_⟩, ?_, by decide, rfl, by simp⟩
  · intro t ht
    simp only [List.mem_cons, List.mem_singleton] at ht
    rcases ht with rfl | rfl | h
    · rfl
    · rfl
    · simp at h
  · have h1 : Step ⟨1, 0, [⟨false, Phase.waiting⟩, ⟨true, Phase.waiting⟩]⟩
        ⟨1, 1, [⟨false, Phase.inflight⟩, ⟨true, Phase.waiting⟩]⟩ :=
      Step.admitReq ⟨1, 0, [⟨false, Phase.waiting⟩, ⟨true, Phase.waiting⟩]⟩ 0
        ⟨false, Phase.waiting⟩ rfl rfl rfl (by decide)
    have h2 : Step ⟨1, 1, [⟨false, Phase.inflight⟩, ⟨true, Phase.waiting⟩]⟩
        ⟨1, 1, [⟨false, Phase.inflight⟩, ⟨true, Phase.inflight⟩]⟩ :=
      Step.startDownload ⟨1, 1, [⟨false, Phase.inflight⟩, ⟨true, Phase.waiting⟩]⟩ 1
        ⟨true, Phase.waiting⟩ rfl rfl rfl
    exact Steps.tail (Steps.tail (Steps.refl _) h1) h2
